import Mathlib

/-!
Shallow embedding of `src/script.js` (Premier Schools Exhibition front-end).

The file models the three carousel widgets (`HeroSlider`, `ChooseSchoolSlider`,
`ExhibitionBenefitsSlider`), the form validator (`FormValidator`), and the
scroll-animation intersection observer (`initScrollAnimations`), and proves the
spec's testable properties about them.  DOM inputs (viewport width, card pixel
width, touch coordinates, field values) are passed as explicit arguments;
DOM writes (transforms, classes, messages) are returned as explicit result
values or action logs.
-/

set_option autoImplicit false

namespace SchoolSite

/-! ## Hero slider (script.js lines 56-189)

State is the current slide index and the number of slides; `init` returns
early when there are no slides, so the interesting case is `slidesLen > 0`.
`goToNextSlide` / `goToPrevSlide` wrap modulo the slide count
(`(currentSlide + 1) % slides.length` and
`(currentSlide - 1 + slides.length) % slides.length`); for `slidesLen ≥ 1`
the Nat expression `currentSlide + slidesLen - 1` equals the JS
`currentSlide - 1 + slides.length`. -/

structure HeroSlider where
  currentSlide : Nat
  slidesLen : Nat
deriving DecidableEq, Repr

def HeroSlider.goToNextSlide (s : HeroSlider) : HeroSlider :=
  { s with currentSlide := (s.currentSlide + 1) % s.slidesLen }

def HeroSlider.goToPrevSlide (s : HeroSlider) : HeroSlider :=
  { s with currentSlide := (s.currentSlide + s.slidesLen - 1) % s.slidesLen }

/-- script.js lines 121-132: swipe with `diff = startX - endX`, threshold 50,
`Math.abs(diff) > threshold` decides; positive `diff` goes next. -/
def HeroSlider.handleSwipe (s : HeroSlider) (startX endX : Int) : HeroSlider :=
  let diff := startX - endX
  if 50 < |diff| then
    if 0 < diff then s.goToNextSlide else s.goToPrevSlide
  else s

/-! ## Choose-school slider (script.js lines 194-327)

State: `currentIndex` (JS number, modelled as `Int` since `goToIndex` can be
fed arbitrary integers), the card count, the cards-per-view bucket and the
stored `maxIndex` field. -/

structure ChooseSchoolSlider where
  currentIndex : Int
  cardsLen : Nat
  cardsPerView : Nat
  maxIndex : Int
deriving DecidableEq, Repr

/-- script.js lines 218-224: width buckets for `window.innerWidth`. -/
def ChooseSchoolSlider.getCardsPerView (width : Nat) : Nat :=
  if width < 480 then 1
  else if width < 768 then 1
  else if width < 1024 then 2
  else 4

/-- script.js lines 195-208: the constructor sets `currentIndex = 0`,
`cardsPerView = getCardsPerView()`, `maxIndex = max(0, cards.length - cardsPerView)`. -/
def ChooseSchoolSlider.new (cardsLen width : Nat) : ChooseSchoolSlider :=
  let cpv := ChooseSchoolSlider.getCardsPerView width
  { currentIndex := 0
    cardsLen := cardsLen
    cardsPerView := cpv
    maxIndex := max 0 ((cardsLen : Int) - (cpv : Int)) }

/-- script.js lines 279-284. -/
def ChooseSchoolSlider.goToNext (s : ChooseSchoolSlider) : ChooseSchoolSlider :=
  if s.currentIndex < s.maxIndex then
    { s with currentIndex := s.currentIndex + 1 }
  else s

/-- script.js lines 286-291. -/
def ChooseSchoolSlider.goToPrev (s : ChooseSchoolSlider) : ChooseSchoolSlider :=
  if 0 < s.currentIndex then
    { s with currentIndex := s.currentIndex - 1 }
  else s

/-- script.js lines 293-296: `currentIndex = Math.min(index, maxIndex)`
(note: no lower clamp). -/
def ChooseSchoolSlider.goToIndex (s : ChooseSchoolSlider) (index : Int) : ChooseSchoolSlider :=
  { s with currentIndex := min index s.maxIndex }

/-- script.js lines 257-264: the debounced resize handler recomputes
`cardsPerView`, `maxIndex` and re-clamps `currentIndex` with `Math.min`. -/
def ChooseSchoolSlider.handleResize (s : ChooseSchoolSlider) (width : Nat) : ChooseSchoolSlider :=
  let cpv := ChooseSchoolSlider.getCardsPerView width
  let mx := max 0 ((s.cardsLen : Int) - (cpv : Int))
  { s with cardsPerView := cpv, maxIndex := mx, currentIndex := min s.currentIndex mx }

/-- script.js lines 266-277. -/
def ChooseSchoolSlider.handleSwipe (s : ChooseSchoolSlider) (startX endX : Int) : ChooseSchoolSlider :=
  let diff := startX - endX
  if 50 < |diff| then
    if 0 < diff then s.goToNext else s.goToPrev
  else s

/-- The DOM writes performed by `updateSlider`: the track transform offset in
pixels, whether `transition: none` was forced, and the nav-button disabled
flags (script.js lines 298-326). -/
structure SliderView where
  offsetPx : Int
  transitionNone : Bool
  prevDisabled : Bool
  nextDisabled : Bool
deriving DecidableEq, Repr

/-- script.js lines 298-326: `offset = -(currentIndex * (cardWidth + 24))`;
both motion branches apply the same transform, the reduced-motion branch
additionally sets `transition: 'none'`. -/
def ChooseSchoolSlider.updateSlider (s : ChooseSchoolSlider) (cardWidth : Int)
    (reducedMotion : Bool) : SliderView :=
  let gap : Int := 24
  let offset : Int := -(s.currentIndex * (cardWidth + gap))
  { offsetPx := offset
    transitionNone := reducedMotion
    prevDisabled := s.currentIndex == 0
    nextDisabled := s.currentIndex == s.maxIndex }

/-- script.js lines 311-315: dot `index === currentIndex` selects the dot. -/
def ChooseSchoolSlider.dotSelected (s : ChooseSchoolSlider) (dotIndex : Nat) : Bool :=
  (dotIndex : Int) == s.currentIndex

/-! ## Exhibition benefits slider (script.js lines 417-591)

Same clamped-index logic as the choose-school slider (the class is
duplicated in the source), plus the `_activated` lazy-init flag:
the constructor only runs `init()` when `autoInit` is true, and `init()`
is a no-op when already activated or when there are no cards. -/

structure ExhibitionBenefitsSlider where
  currentIndex : Int
  cardsLen : Nat
  cardsPerView : Nat
  maxIndex : Int
  activated : Bool
deriving DecidableEq, Repr

/-- script.js lines 444-450 (duplicate of the choose-school bucket table). -/
def ExhibitionBenefitsSlider.getCardsPerView (width : Nat) : Nat :=
  if width < 480 then 1
  else if width < 768 then 1
  else if width < 1024 then 2
  else 4

/-- script.js lines 434-442: `init` is a no-op when `_activated` is set or
there are no cards; otherwise it marks activation and attaches listeners. -/
def ExhibitionBenefitsSlider.init (s : ExhibitionBenefitsSlider) : ExhibitionBenefitsSlider :=
  if s.activated then s
  else if s.cardsLen = 0 then s
  else { s with activated := true }

/-- script.js lines 418-432: constructor with `autoInit` flag
(`window.__benefitsSlider` is created with `autoInit = false`, line 845). -/
def ExhibitionBenefitsSlider.new (cardsLen width : Nat) (autoInit : Bool) :
    ExhibitionBenefitsSlider :=
  let cpv := ExhibitionBenefitsSlider.getCardsPerView width
  let s : ExhibitionBenefitsSlider :=
    { currentIndex := 0
      cardsLen := cardsLen
      cardsPerView := cpv
      maxIndex := max 0 ((cardsLen : Int) - (cpv : Int))
      activated := false }
  if autoInit then s.init else s

/-- script.js lines 555-560. -/
def ExhibitionBenefitsSlider.goToNext (s : ExhibitionBenefitsSlider) : ExhibitionBenefitsSlider :=
  if s.currentIndex < s.maxIndex then
    { s with currentIndex := s.currentIndex + 1 }
  else s

/-- script.js lines 562-567. -/
def ExhibitionBenefitsSlider.goToPrev (s : ExhibitionBenefitsSlider) : ExhibitionBenefitsSlider :=
  if 0 < s.currentIndex then
    { s with currentIndex := s.currentIndex - 1 }
  else s

/-- script.js lines 533-540. -/
def ExhibitionBenefitsSlider.handleResize (s : ExhibitionBenefitsSlider) (width : Nat) :
    ExhibitionBenefitsSlider :=
  let cpv := ExhibitionBenefitsSlider.getCardsPerView width
  let mx := max 0 ((s.cardsLen : Int) - (cpv : Int))
  { s with cardsPerView := cpv, maxIndex := mx, currentIndex := min s.currentIndex mx }

/-- script.js lines 542-553. -/
def ExhibitionBenefitsSlider.handleSwipe (s : ExhibitionBenefitsSlider) (startX endX : Int) :
    ExhibitionBenefitsSlider :=
  let diff := startX - endX
  if 50 < |diff| then
    if 0 < diff then s.goToNext else s.goToPrev
  else s

/-- script.js lines 569-590: same offset formula and motion handling as the
choose-school slider; no dots on this carousel. -/
def ExhibitionBenefitsSlider.updateSlider (s : ExhibitionBenefitsSlider) (cardWidth : Int)
    (reducedMotion : Bool) : SliderView :=
  let gap : Int := 24
  let offset : Int := -(s.currentIndex * (cardWidth + gap))
  { offsetPx := offset
    transitionNone := reducedMotion
    prevDisabled := s.currentIndex == 0
    nextDisabled := s.currentIndex == s.maxIndex }

/-! ## Form validator (script.js lines 596-711)

A form field is modelled by its (raw) string value, its `type` attribute and
whether it carries the `required` attribute.  `validateField` mirrors the JS
control flow: trim, required-empty check, then the `tel` 10-digit pattern on
the trimmed value.  Showing/clearing the inline error is captured by the
returned `errorMessage` (non-empty exactly when an error element is shown). -/

/-- Model of JS `String.prototype.trim`: drop whitespace from both ends
(restricted to ASCII whitespace, which covers every value used here). -/
def jsTrim (s : String) : String :=
  ⟨((s.data.dropWhile Char.isWhitespace).reverse.dropWhile Char.isWhitespace).reverse⟩

/-- Model of `/^[0-9]{10}$/.test value`: exactly ten ASCII-digit characters. -/
def phoneRegexTest (s : String) : Bool :=
  s.length == 10 && s.data.all Char.isDigit

structure FormField where
  value : String
  fieldType : String
  required : Bool
deriving DecidableEq, Repr

structure FieldResult where
  isValid : Bool
  errorMessage : String
deriving DecidableEq, Repr

/-- script.js lines 620-644: `validateField`.  The JS truthiness tests
`!value` / `value` on the trimmed string become emptiness tests. -/
def validateField (field : FormField) : FieldResult :=
  let value := jsTrim field.value
  if field.required && value == "" then
    { isValid := false, errorMessage := "This field is required" }
  else if field.fieldType == "tel" && !(value == "") then
    if phoneRegexTest value then
      { isValid := true, errorMessage := "" }
    else
      { isValid := false, errorMessage := "Please enter a valid 10-digit phone number" }
  else
    { isValid := true, errorMessage := "" }

/-- script.js lines 646-657: `validateForm` re-validates every
`input[required]` of the form and accumulates the conjunction. -/
def validateForm (form : List FormField) : Bool :=
  (form.filter (fun f => f.required)).all (fun f => (validateField f).isValid)

/-- Observable effects of the submit handler (script.js lines 605-610 and
686-710).  There is no constructor for a network request because the code
performs none; `logValues` models the `console.log` and
`appendSuccessMessage n` models appending the success `div` together with the
`setTimeout(.., n)` that removes it. -/
inductive SubmitAction
  | logValues
  | appendSuccessMessage (autoRemoveAfterMs : Nat)
  | resetForm
  | showFieldError (message : String)
deriving DecidableEq, Repr

/-- script.js lines 605-610 with 686-697: `e.preventDefault()` always fires;
if `validateForm()` passes, `handleSubmit()` logs the values, appends the
success message (auto-removed after 5000 ms) and resets the form; otherwise
submission stops and the failing required fields keep their inline errors
(shown by `validateField` during `validateForm`).  Returns
(submission went through?, DOM/console actions). -/
def submitHandler (form : List FormField) : Bool × List SubmitAction :=
  if validateForm form then
    (true, [SubmitAction.logValues, SubmitAction.appendSuccessMessage 5000,
            SubmitAction.resetForm])
  else
    (false, (form.filter (fun f => f.required)).filterMap
      (fun f =>
        if (validateField f).isValid then none
        else some (SubmitAction.showFieldError (validateField f).errorMessage)))

/-! ## Scroll animations and deferred benefits activation
(script.js lines 741-768 and 841-846)

`initScrollAnimations` returns immediately under reduced motion, so no
`IntersectionObserver` is created and no section is ever observed.  Otherwise
it observes the five tracked sections with `threshold: 0.1` and a `-50px`
bottom root margin.  The observer callback, per the host observer semantics,
only delivers entries for targets currently observed; each intersecting entry
adds the `animate-in` class, calls `window.__benefitsSlider.init()` when the
target is the exhibition-benefits section, and unobserves the target. -/

inductive PageSection
  | stats
  | participatingSchools
  | chooseSchool
  | appointments
  | exhibitionBenefits
deriving DecidableEq, Repr

/-- script.js line 765: the five observed sections. -/
def trackedSections : List PageSection :=
  [PageSection.stats, PageSection.participatingSchools, PageSection.chooseSchool,
   PageSection.appointments, PageSection.exhibitionBenefits]

/-- script.js line 745: `threshold: 0.1`, i.e. at least 10% visibility. -/
def observerThreshold : Rat := 1 / 10

/-- script.js line 746: `rootMargin: '0px 0px -50px 0px'` (50px bottom margin). -/
def observerRootMarginBottomPx : Int := -50

structure PageAnim where
  observerInstalled : Bool
  observed : List PageSection
  animateAdds : List PageSection
  benefits : ExhibitionBenefitsSlider
  benefitsInitCalls : Nat
deriving DecidableEq, Repr

/-- script.js lines 741-768: reduced motion returns before creating the
observer; otherwise all tracked sections start observed.  `benefits` is the
`window.__benefitsSlider` instance (created with `autoInit = false`,
line 845). -/
def initScrollAnimations (reducedMotion : Bool) (benefits : ExhibitionBenefitsSlider) :
    PageAnim :=
  if reducedMotion then
    { observerInstalled := false, observed := [], animateAdds := [],
      benefits := benefits, benefitsInitCalls := 0 }
  else
    { observerInstalled := true, observed := trackedSections, animateAdds := [],
      benefits := benefits, benefitsInitCalls := 0 }

/-- One observer callback entry (script.js lines 749-762): the host delivers
entries only for observed targets; `entry.isIntersecting` reflects the
threshold/root-margin configuration.  On an intersecting entry the callback
adds `animate-in`, activates the deferred benefits slider when the target is
its section, and unobserves the target. -/
def observerCallbackStep (st : PageAnim) (target : PageSection) (isIntersecting : Bool) :
    PageAnim :=
  if target ∈ st.observed ∧ isIntersecting = true then
    { observerInstalled := st.observerInstalled
      observed := st.observed.erase target
      animateAdds := st.animateAdds ++ [target]
      benefits :=
        if target = PageSection.exhibitionBenefits then st.benefits.init else st.benefits
      benefitsInitCalls :=
        if target = PageSection.exhibitionBenefits then st.benefitsInitCalls + 1
        else st.benefitsInitCalls }
  else st

/-- Run a finite trace of intersection events through the callback. -/
def runIntersectionEvents (st : PageAnim) : List (PageSection × Bool) → PageAnim
  | [] => st
  | (t, i) :: rest => runIntersectionEvents (observerCallbackStep st t i) rest

/-! ## Operation sequences for the index invariant -/

/-- The public operations of the choose-school slider named by the spec:
button/keyboard next and prev, dot `goToIndex`, and the debounced resize. -/
inductive SliderOp
  | next
  | prev
  | goTo (i : Int)
  | resize (width : Nat)
deriving DecidableEq, Repr

def ChooseSchoolSlider.applyOp (s : ChooseSchoolSlider) : SliderOp → ChooseSchoolSlider
  | SliderOp.next => s.goToNext
  | SliderOp.prev => s.goToPrev
  | SliderOp.goTo i => s.goToIndex i
  | SliderOp.resize w => s.handleResize w

def ChooseSchoolSlider.runOps (s : ChooseSchoolSlider) (ops : List SliderOp) :
    ChooseSchoolSlider :=
  ops.foldl ChooseSchoolSlider.applyOp s

/-- `goTo` arguments that are non-negative (the page's dot handlers only ever
pass list indices, which are non-negative). -/
def SliderOp.nonNegGoTo : SliderOp → Bool
  | SliderOp.goTo i => 0 ≤ i
  | _ => true

/-- Benefits-slider operations (this carousel has no dots / `goToIndex`). -/
inductive BenefitsOp
  | next
  | prev
  | resize (width : Nat)
deriving DecidableEq, Repr

def ExhibitionBenefitsSlider.applyOp (s : ExhibitionBenefitsSlider) :
    BenefitsOp → ExhibitionBenefitsSlider
  | BenefitsOp.next => s.goToNext
  | BenefitsOp.prev => s.goToPrev
  | BenefitsOp.resize w => s.handleResize w

def ExhibitionBenefitsSlider.runOps (s : ExhibitionBenefitsSlider) (ops : List BenefitsOp) :
    ExhibitionBenefitsSlider :=
  ops.foldl ExhibitionBenefitsSlider.applyOp s

/-! ## Theorems -/

/-- C1 counterexample: the hero slider does not clamp.  With 3 slides and
`currentSlide = 2` (its largest index), `goToNextSlide` wraps around to 0
instead of being a no-op, and `goToPrevSlide` at 0 wraps to 2. -/
theorem hero_next_at_last_slide_wraps :
    (HeroSlider.goToNextSlide { currentSlide := 2, slidesLen := 3 }).currentSlide = 0
    ∧ (HeroSlider.goToNextSlide { currentSlide := 2, slidesLen := 3 }).currentSlide ≠ 2
    ∧ (HeroSlider.goToPrevSlide { currentSlide := 0, slidesLen := 3 }).currentSlide = 2 := by
  decide

/-- C1 (amended): for the school-choice and benefits sliders, `next()` at
`index = maxIndex` and `prev()` at `index = 0` are no-ops (the whole state,
hence also the rendered view derived from it, is unchanged); the hero slider
instead wraps modulo the slide count: `next()` at the last slide returns to
slide 0 and `prev()` at slide 0 goes to the last slide. -/
theorem carousel_bound_behavior :
    (∀ s : ChooseSchoolSlider, s.currentIndex = s.maxIndex → s.goToNext = s)
    ∧ (∀ s : ChooseSchoolSlider, s.currentIndex = 0 → s.goToPrev = s)
    ∧ (∀ b : ExhibitionBenefitsSlider, b.currentIndex = b.maxIndex → b.goToNext = b)
    ∧ (∀ b : ExhibitionBenefitsSlider, b.currentIndex = 0 → b.goToPrev = b)
    ∧ (∀ h : HeroSlider, 0 < h.slidesLen → h.currentSlide = h.slidesLen - 1 →
        h.goToNextSlide.currentSlide = 0)
    ∧ (∀ h : HeroSlider, 0 < h.slidesLen → h.currentSlide = 0 →
        h.goToPrevSlide.currentSlide = h.slidesLen - 1) := by
  refine ⟨?_, ?_, ?_, ?_, ?_, ?_⟩
  · intro s hs; simp [ChooseSchoolSlider.goToNext, hs]
  · intro s hs; simp [ChooseSchoolSlider.goToPrev, hs]
  · intro b hb; simp [ExhibitionBenefitsSlider.goToNext, hb]
  · intro b hb; simp [ExhibitionBenefitsSlider.goToPrev, hb]
  · intro h hlen hcur
    simp [HeroSlider.goToNextSlide, hcur, Nat.sub_add_cancel hlen]
  · intro h hlen hcur
    simp [HeroSlider.goToPrevSlide, hcur, Nat.mod_eq_of_lt (Nat.sub_lt hlen Nat.one_pos)]

/-- C1 witness: the no-op conjunct evaluated at a concrete state with
`currentIndex = maxIndex = 4`. -/
theorem carousel_bound_behavior_witness :
    ChooseSchoolSlider.goToNext
        { currentIndex := 4, cardsLen := 8, cardsPerView := 4, maxIndex := 4 }
      = { currentIndex := 4, cardsLen := 8, cardsPerView := 4, maxIndex := 4 } :=
  carousel_bound_behavior.1
    { currentIndex := 4, cardsLen := 8, cardsPerView := 4, maxIndex := 4 } rfl

/-- C3 counterexample: a swipe of `|Δx| = 100 > 50` on a slider already at
`maxIndex` (4 cards, 4 per view, so `maxIndex = 0`) leaves the index
unchanged instead of changing it by exactly one. -/
theorem swipe_at_bound_does_not_advance :
    (50 < |(100 : Int) - 0|)
    ∧ ((ChooseSchoolSlider.new 4 1200).handleSwipe 100 0).currentIndex
        = (ChooseSchoolSlider.new 4 1200).currentIndex := by
  decide

/-- C3 (amended): a swipe with `|Δx| ≤ 50` leaves every carousel unchanged;
a swipe with `|Δx| > 50` performs exactly one `next` (leftward swipe,
`startX > endX`) or one `prev` (rightward swipe), which changes the index by
exactly one when the corresponding bound is not yet reached and is a no-op at
the bound for the clamped sliders (the hero slider wraps instead). -/
theorem swipe_threshold_behavior :
    (∀ (s : ChooseSchoolSlider) (sx ex : Int), |sx - ex| ≤ 50 → s.handleSwipe sx ex = s)
    ∧ (∀ (b : ExhibitionBenefitsSlider) (sx ex : Int), |sx - ex| ≤ 50 →
        b.handleSwipe sx ex = b)
    ∧ (∀ (h : HeroSlider) (sx ex : Int), |sx - ex| ≤ 50 → h.handleSwipe sx ex = h)
    ∧ (∀ (s : ChooseSchoolSlider) (sx ex : Int), 50 < sx - ex →
        s.handleSwipe sx ex = s.goToNext)
    ∧ (∀ (s : ChooseSchoolSlider) (sx ex : Int), 50 < ex - sx →
        s.handleSwipe sx ex = s.goToPrev)
    ∧ (∀ (b : ExhibitionBenefitsSlider) (sx ex : Int), 50 < sx - ex →
        b.handleSwipe sx ex = b.goToNext)
    ∧ (∀ (b : ExhibitionBenefitsSlider) (sx ex : Int), 50 < ex - sx →
        b.handleSwipe sx ex = b.goToPrev)
    ∧ (∀ (h : HeroSlider) (sx ex : Int), 50 < sx - ex → h.handleSwipe sx ex = h.goToNextSlide)
    ∧ (∀ (h : HeroSlider) (sx ex : Int), 50 < ex - sx → h.handleSwipe sx ex = h.goToPrevSlide)
    ∧ (∀ s : ChooseSchoolSlider, s.currentIndex < s.maxIndex →
        s.goToNext.currentIndex = s.currentIndex + 1)
    ∧ (∀ s : ChooseSchoolSlider, ¬s.currentIndex < s.maxIndex → s.goToNext = s)
    ∧ (∀ s : ChooseSchoolSlider, 0 < s.currentIndex →
        s.goToPrev.currentIndex = s.currentIndex - 1)
    ∧ (∀ s : ChooseSchoolSlider, ¬0 < s.currentIndex → s.goToPrev = s)
    ∧ (∀ b : ExhibitionBenefitsSlider, b.currentIndex < b.maxIndex →
        b.goToNext.currentIndex = b.currentIndex + 1)
    ∧ (∀ b : ExhibitionBenefitsSlider, ¬b.currentIndex < b.maxIndex → b.goToNext = b)
    ∧ (∀ b : ExhibitionBenefitsSlider, 0 < b.currentIndex →
        b.goToPrev.currentIndex = b.currentIndex - 1)
    ∧ (∀ b : ExhibitionBenefitsSlider, ¬0 < b.currentIndex → b.goToPrev = b) := by
  refine ⟨?_, ?_, ?_, ?_, ?_, ?_, ?_, ?_, ?_, ?_, ?_, ?_, ?_, ?_, ?_, ?_, ?_⟩
  · intro s sx ex h; simp [ChooseSchoolSlider.handleSwipe, not_lt.mpr h]
  · intro b sx ex h; simp [ExhibitionBenefitsSlider.handleSwipe, not_lt.mpr h]
  · intro h sx ex hle; simp [HeroSlider.handleSwipe, not_lt.mpr hle]
  · intro s sx ex h
    have h1 : 50 < |sx - ex| := lt_of_lt_of_le h (le_abs_self _)
    have h2 : (0 : Int) < sx - ex := by omega
    simp [ChooseSchoolSlider.handleSwipe, h1, h2]
  · intro s sx ex h
    have h1 : 50 < |sx - ex| := by rw [abs_sub_comm]; exact lt_of_lt_of_le h (le_abs_self _)
    have h2 : ¬(0 : Int) < sx - ex := by omega
    simp [ChooseSchoolSlider.handleSwipe, h1, h2]
  · intro b sx ex h
    have h1 : 50 < |sx - ex| := lt_of_lt_of_le h (le_abs_self _)
    have h2 : (0 : Int) < sx - ex := by omega
    simp [ExhibitionBenefitsSlider.handleSwipe, h1, h2]
  · intro b sx ex h
    have h1 : 50 < |sx - ex| := by rw [abs_sub_comm]; exact lt_of_lt_of_le h (le_abs_self _)
    have h2 : ¬(0 : Int) < sx - ex := by omega
    simp [ExhibitionBenefitsSlider.handleSwipe, h1, h2]
  · intro hh sx ex h
    have h1 : 50 < |sx - ex| := lt_of_lt_of_le h (le_abs_self _)
    have h2 : (0 : Int) < sx - ex := by omega
    simp [HeroSlider.handleSwipe, h1, h2]
  · intro hh sx ex h
    have h1 : 50 < |sx - ex| := by rw [abs_sub_comm]; exact lt_of_lt_of_le h (le_abs_self _)
    have h2 : ¬(0 : Int) < sx - ex := by omega
    simp [HeroSlider.handleSwipe, h1, h2]
  · intro s h; simp [ChooseSchoolSlider.goToNext, h]
  · intro s h; simp [ChooseSchoolSlider.goToNext, h]
  · intro s h; simp [ChooseSchoolSlider.goToPrev, h]
  · intro s h; simp [ChooseSchoolSlider.goToPrev, h]
  · intro b h; simp [ExhibitionBenefitsSlider.goToNext, h]
  · intro b h; simp [ExhibitionBenefitsSlider.goToNext, h]
  · intro b h; simp [ExhibitionBenefitsSlider.goToPrev, h]
  · intro b h; simp [ExhibitionBenefitsSlider.goToPrev, h]

/-- C3 witness: the below-threshold conjunct evaluated at `Δx = 10`. -/
theorem swipe_threshold_behavior_witness :
    ChooseSchoolSlider.handleSwipe
        { currentIndex := 0, cardsLen := 8, cardsPerView := 4, maxIndex := 4 } 10 0
      = { currentIndex := 0, cardsLen := 8, cardsPerView := 4, maxIndex := 4 } :=
  swipe_threshold_behavior.1
    { currentIndex := 0, cardsLen := 8, cardsPerView := 4, maxIndex := 4 } 10 0 (by decide)

/-- C7: for both pixel-offset carousels, `updateSlider` applies the offset
`-(index * (cardWidth + 24))` (fixed 24px gap), the offset is the same value
whether or not reduced motion is preferred, and the reduced-motion preference
only controls whether the animated transition is disabled. -/
theorem update_slider_offset_formula (s : ChooseSchoolSlider) (b : ExhibitionBenefitsSlider)
    (cardWidth : Int) (m : Bool) :
    (s.updateSlider cardWidth m).offsetPx = -(s.currentIndex * (cardWidth + 24))
    ∧ (b.updateSlider cardWidth m).offsetPx = -(b.currentIndex * (cardWidth + 24))
    ∧ (s.updateSlider cardWidth true).offsetPx = (s.updateSlider cardWidth false).offsetPx
    ∧ (b.updateSlider cardWidth true).offsetPx = (b.updateSlider cardWidth false).offsetPx
    ∧ (s.updateSlider cardWidth m).transitionNone = m
    ∧ (b.updateSlider cardWidth m).transitionNone = m
    ∧ (s.updateSlider cardWidth true).prevDisabled = (s.updateSlider cardWidth false).prevDisabled
    ∧ (s.updateSlider cardWidth true).nextDisabled
        = (s.updateSlider cardWidth false).nextDisabled :=
  ⟨rfl, rfl, rfl, rfl, rfl, rfl, rfl, rfl⟩

/-- C8: the items-per-view bucket function (identical in both responsive
carousels) returns 1 for every width below 480, 2 at width 900, and 4 at
width 1400. -/
theorem cards_per_view_buckets :
    (∀ w : Nat, w < 480 →
      ChooseSchoolSlider.getCardsPerView w = 1 ∧ ExhibitionBenefitsSlider.getCardsPerView w = 1)
    ∧ ChooseSchoolSlider.getCardsPerView 900 = 2
    ∧ ExhibitionBenefitsSlider.getCardsPerView 900 = 2
    ∧ ChooseSchoolSlider.getCardsPerView 1400 = 4
    ∧ ExhibitionBenefitsSlider.getCardsPerView 1400 = 4 := by
  refine ⟨fun w hw => ?_, by decide, by decide, by decide, by decide⟩
  constructor
  · simp [ChooseSchoolSlider.getCardsPerView, hw]
  · simp [ExhibitionBenefitsSlider.getCardsPerView, hw]

/-- C8 witness: the sub-480 conjunct evaluated at width 300. -/
theorem cards_per_view_buckets_witness :
    ChooseSchoolSlider.getCardsPerView 300 = 1 :=
  (cards_per_view_buckets.1 300 (by decide)).1

/-- C5 counterexample: the 10-digit pattern is applied to the trimmed value,
not the raw one.  The non-empty raw value `"1234567890 "` (trailing space)
fails the pattern yet produces no error, and the non-empty all-whitespace
value `" "` in a non-required phone field also fails the pattern yet produces
no error. -/
theorem phone_pattern_applies_to_trimmed_value :
    ({ value := "1234567890 ", fieldType := "tel", required := false } : FormField).value ≠ ""
    ∧ phoneRegexTest "1234567890 " = false
    ∧ (validateField
        { value := "1234567890 ", fieldType := "tel", required := false }).isValid = true
    ∧ (" " : String) ≠ ""
    ∧ phoneRegexTest " " = false
    ∧ (validateField { value := " ", fieldType := "tel", required := false }).isValid = true := by
  decide

/-- C5 (amended): for every phone-typed field whose trimmed value is
non-empty, validation fails (an inline error message is produced) if and
only if the trimmed value does not match the exactly-10-decimal-digit
pattern; the failure carries the 10-digit error message and success carries
none. -/
theorem phone_field_validation (f : FormField) (ht : f.fieldType = "tel")
    (hne : jsTrim f.value ≠ "") :
    ((validateField f).isValid = false ↔ phoneRegexTest (jsTrim f.value) = false)
    ∧ ((validateField f).isValid = false →
        (validateField f).errorMessage = "Please enter a valid 10-digit phone number")
    ∧ ((validateField f).isValid = true → (validateField f).errorMessage = "") := by
  have h0 : (jsTrim f.value == "") = false := by
    simpa using hne
  by_cases hp : phoneRegexTest (jsTrim f.value) = true
  · simp [validateField, ht, h0, hp]
  · rw [Bool.not_eq_true] at hp
    simp [validateField, ht, h0, hp]

/-- C5 witness: a 9-digit value in a phone field fails validation. -/
theorem phone_field_validation_witness :
    ((validateField { value := "123456789", fieldType := "tel", required := false }).isValid
        = false
      ↔ phoneRegexTest (jsTrim "123456789") = false)
    ∧ ((validateField { value := "123456789", fieldType := "tel", required := false }).isValid
          = false →
        (validateField { value := "123456789", fieldType := "tel", required := false
          }).errorMessage = "Please enter a valid 10-digit phone number")
    ∧ ((validateField { value := "123456789", fieldType := "tel", required := false }).isValid
          = true →
        (validateField { value := "123456789", fieldType := "tel", required := false
          }).errorMessage = "") :=
  phone_field_validation { value := "123456789", fieldType := "tel", required := false }
    rfl (by decide)

/-- C10: a required field whose value consists only of whitespace characters
is treated as empty on blur validation: it fails with the required-field
error, because the value is trimmed before the emptiness check. -/
theorem whitespace_required_field_fails (f : FormField) (hreq : f.required = true)
    (hws : f.value.data.all Char.isWhitespace = true) :
    validateField f = { isValid := false, errorMessage := "This field is required" } := by
  have htrim : jsTrim f.value = "" := by
    unfold jsTrim
    have h1 : f.value.data.dropWhile Char.isWhitespace = [] := by
      rw [List.dropWhile_eq_nil_iff]
      intro x hx
      exact List.all_eq_true.mp hws x hx
    rw [h1]
    rfl
  simp [validateField, htrim, hreq]

/-- C10 witness: the three-space value in a required text field. -/
theorem whitespace_required_field_fails_witness :
    validateField { value := "   ", fieldType := "text", required := true }
      = { isValid := false, errorMessage := "This field is required" } :=
  whitespace_required_field_fails { value := "   ", fieldType := "text", required := true }
    rfl (by decide)

/-- C4: submission is blocked (and each failing required field keeps its
inline error message) if and only if some required field fails
re-validation; when every required field passes, the handler logs the
values, appends a success message that is auto-removed after 5000 ms, and
resets the form; no network-request action exists in the handler's effects. -/
theorem submit_blocked_iff_required_field_invalid (form : List FormField) :
    ((submitHandler form).1 = false ↔
      ∃ f ∈ form, f.required = true ∧ (validateField f).isValid = false)
    ∧ ((submitHandler form).1 = true →
        (submitHandler form).2 =
          [SubmitAction.logValues, SubmitAction.appendSuccessMessage 5000,
           SubmitAction.resetForm])
    ∧ (∀ n, SubmitAction.appendSuccessMessage n ∈ (submitHandler form).2 → n = 5000)
    ∧ (∀ f ∈ form, f.required = true → (validateField f).isValid = false →
        SubmitAction.showFieldError (validateField f).errorMessage ∈ (submitHandler form).2) := by
  have hvf : validateForm form = false ↔
      ∃ f ∈ form, f.required = true ∧ (validateField f).isValid = false := by
    rw [validateForm, List.all_eq_false]
    constructor
    · rintro ⟨f, hf, hval⟩
      rw [List.mem_filter] at hf
      exact ⟨f, hf.1, hf.2, by simpa using hval⟩
    · rintro ⟨f, hf, hreq, hval⟩
      exact ⟨f, List.mem_filter.mpr ⟨hf, hreq⟩, by simp [hval]⟩
  by_cases hv : validateForm form = true
  · refine ⟨?_, ?_, ?_, ?_⟩
    · simp only [submitHandler, hv, if_true]
      constructor
      · intro h; cases h
      · intro hex
        exact absurd hv (by simp [hvf.mpr hex])
    · intro _; simp [submitHandler, hv]
    · intro n hn
      simp only [submitHandler, hv, if_true] at hn
      simp only [List.mem_cons, List.not_mem_nil, or_false] at hn
      rcases hn with h | h | h <;> first | cases h; rfl | cases h
    · intro f hf hreq hval
      exact absurd hv (by simp [hvf.mpr ⟨f, hf, hreq, hval⟩])
  · rw [Bool.not_eq_true] at hv
    refine ⟨?_, ?_, ?_, ?_⟩
    · simp only [submitHandler, hv, if_false]
      exact iff_of_true rfl (hvf.mp hv)
    · intro h
      rw [submitHandler, hv] at h
      simp at h
    · intro n hn
      simp only [submitHandler, hv, Bool.false_eq_true, if_false, List.mem_filterMap] at hn
      obtain ⟨f, -, hsome⟩ := hn
      by_cases hval : (validateField f).isValid = true <;> simp [hval] at hsome
    · intro f hf hreq hval
      simp only [submitHandler, hv, Bool.false_eq_true, if_false, List.mem_filterMap]
      exact ⟨f, List.mem_filter.mpr ⟨hf, hreq⟩, by simp [hval]⟩

/-- C4 witness: a form with one valid required field submits with exactly
the log / success-message / reset effects. -/
theorem submit_blocked_iff_required_field_invalid_witness :
    (submitHandler [{ value := "John", fieldType := "text", required := true }]).2 =
      [SubmitAction.logValues, SubmitAction.appendSuccessMessage 5000,
       SubmitAction.resetForm] :=
  (submit_blocked_iff_required_field_invalid
      [{ value := "John", fieldType := "text", required := true }]).2.1 (by decide)

/-! ### Index invariant machinery (claim C2) -/

/-- The state well-formedness the spec asserts: the index lies in
`[0, maxIndex]` and the stored `maxIndex` matches the
`max(0, cards.length - cardsPerView)` formula. -/
def ChooseSchoolSlider.Good (s : ChooseSchoolSlider) : Prop :=
  0 ≤ s.currentIndex ∧ s.currentIndex ≤ s.maxIndex ∧
    s.maxIndex = max 0 ((s.cardsLen : Int) - (s.cardsPerView : Int))

def ExhibitionBenefitsSlider.Good (s : ExhibitionBenefitsSlider) : Prop :=
  0 ≤ s.currentIndex ∧ s.currentIndex ≤ s.maxIndex ∧
    s.maxIndex = max 0 ((s.cardsLen : Int) - (s.cardsPerView : Int))

lemma choose_slider_good_new (cardsLen width : Nat) :
    (ChooseSchoolSlider.new cardsLen width).Good :=
  ⟨le_refl 0, le_max_left 0 _, rfl⟩

lemma choose_slider_good_applyOp (s : ChooseSchoolSlider) (op : SliderOp)
    (hs : s.Good) (hop : op.nonNegGoTo = true) : (s.applyOp op).Good := by
  obtain ⟨h0, h1, h2⟩ := hs
  have hmx : 0 ≤ s.maxIndex := by rw [h2]; exact le_max_left 0 _
  cases op with
  | next =>
      simp only [ChooseSchoolSlider.applyOp, ChooseSchoolSlider.goToNext]
      split
      · rename_i hc
        refine ⟨?_, ?_, h2⟩
        · show (0 : Int) ≤ s.currentIndex + 1
          omega
        · show s.currentIndex + 1 ≤ s.maxIndex
          omega
      · exact ⟨h0, h1, h2⟩
  | prev =>
      simp only [ChooseSchoolSlider.applyOp, ChooseSchoolSlider.goToPrev]
      split
      · rename_i hc
        refine ⟨?_, ?_, h2⟩
        · show (0 : Int) ≤ s.currentIndex - 1
          omega
        · show s.currentIndex - 1 ≤ s.maxIndex
          omega
      · exact ⟨h0, h1, h2⟩
  | goTo i =>
      have hi : 0 ≤ i := by simpa [SliderOp.nonNegGoTo] using hop
      exact ⟨le_min hi hmx, min_le_right _ _, h2⟩
  | resize w =>
      exact ⟨le_min h0 (le_max_left _ _), min_le_right _ _, rfl⟩

lemma choose_slider_good_runOps (s : ChooseSchoolSlider) (ops : List SliderOp)
    (hs : s.Good) (hops : ops.all SliderOp.nonNegGoTo = true) : (s.runOps ops).Good := by
  induction ops generalizing s with
  | nil => exact hs
  | cons op rest ih =>
      rw [List.all_cons, Bool.and_eq_true] at hops
      exact ih (s.applyOp op) (choose_slider_good_applyOp s op hs hops.1) hops.2

lemma choose_slider_cardsLen_runOps (s : ChooseSchoolSlider) (ops : List SliderOp) :
    (s.runOps ops).cardsLen = s.cardsLen := by
  induction ops generalizing s with
  | nil => rfl
  | cons op rest ih =>
      have hstep : (s.applyOp op).cardsLen = s.cardsLen := by
        cases op with
        | next => simp only [ChooseSchoolSlider.applyOp, ChooseSchoolSlider.goToNext]; split <;> rfl
        | prev => simp only [ChooseSchoolSlider.applyOp, ChooseSchoolSlider.goToPrev]; split <;> rfl
        | goTo i => rfl
        | resize w => rfl
      rw [ChooseSchoolSlider.runOps, List.foldl_cons]
      exact (ih (s.applyOp op)).trans hstep

lemma benefits_slider_good_init (s : ExhibitionBenefitsSlider) (hs : s.Good) :
    s.init.Good := by
  unfold ExhibitionBenefitsSlider.init
  split
  · exact hs
  · split
    · exact hs
    · exact hs

lemma benefits_slider_good_new (cardsLen width : Nat) (autoInit : Bool) :
    (ExhibitionBenefitsSlider.new cardsLen width autoInit).Good := by
  cases autoInit with
  | false => exact ⟨le_refl 0, le_max_left 0 _, rfl⟩
  | true =>
      show (ExhibitionBenefitsSlider.init
        { currentIndex := 0, cardsLen := cardsLen,
          cardsPerView := ExhibitionBenefitsSlider.getCardsPerView width,
          maxIndex := max 0 ((cardsLen : Int)
            - (ExhibitionBenefitsSlider.getCardsPerView width : Int)),
          activated := false }).Good
      exact benefits_slider_good_init _ ⟨le_refl 0, le_max_left 0 _, rfl⟩

lemma benefits_slider_good_applyOp (s : ExhibitionBenefitsSlider) (op : BenefitsOp)
    (hs : s.Good) : (s.applyOp op).Good := by
  obtain ⟨h0, h1, h2⟩ := hs
  cases op with
  | next =>
      simp only [ExhibitionBenefitsSlider.applyOp, ExhibitionBenefitsSlider.goToNext]
      split
      · rename_i hc
        refine ⟨?_, ?_, h2⟩
        · show (0 : Int) ≤ s.currentIndex + 1
          omega
        · show s.currentIndex + 1 ≤ s.maxIndex
          omega
      · exact ⟨h0, h1, h2⟩
  | prev =>
      simp only [ExhibitionBenefitsSlider.applyOp, ExhibitionBenefitsSlider.goToPrev]
      split
      · rename_i hc
        refine ⟨?_, ?_, h2⟩
        · show (0 : Int) ≤ s.currentIndex - 1
          omega
        · show s.currentIndex - 1 ≤ s.maxIndex
          omega
      · exact ⟨h0, h1, h2⟩
  | resize w =>
      exact ⟨le_min h0 (le_max_left _ _), min_le_right _ _, rfl⟩

lemma benefits_slider_good_runOps (s : ExhibitionBenefitsSlider)
    (ops : List BenefitsOp) (hs : s.Good) : (s.runOps ops).Good := by
  induction ops generalizing s with
  | nil => exact hs
  | cons op rest ih => exact ih (s.applyOp op) (benefits_slider_good_applyOp s op hs)

/-- C2 counterexample: `goToIndex` has no lower clamp
(`Math.min(index, maxIndex)` only), so the single-operation sequence
`goToIndex(-1)` from the initial state (8 cards at width 1200) drives the
index to -1, violating `0 ≤ index`. -/
theorem go_to_negative_index_escapes_lower_bound :
    ((ChooseSchoolSlider.new 8 1200).runOps [SliderOp.goTo (-1)]).currentIndex = -1
    ∧ ¬(0 ≤ ((ChooseSchoolSlider.new 8 1200).runOps [SliderOp.goTo (-1)]).currentIndex) := by
  decide

/-- C2 (amended): for every sequence of `next`, `prev`, `goToIndex i` with
`i ≥ 0` (the page's dot handlers only ever pass non-negative list indices)
and resize operations from the initial state, the school-choice slider's
index stays in `[0, maxIndex]` and `maxIndex` always equals
`max(0, itemCount - itemsPerView)` for the current items-per-view; the same
invariant holds for the benefits slider under its operations (it has no
`goToIndex`).  A negative `goToIndex` argument escapes the lower bound
because the code clamps only from above. -/
theorem index_stays_in_bounds (cards width : Nat) (ops : List SliderOp)
    (bcards bwidth : Nat) (bops : List BenefitsOp)
    (hops : ops.all SliderOp.nonNegGoTo = true) :
    (0 ≤ ((ChooseSchoolSlider.new cards width).runOps ops).currentIndex
      ∧ ((ChooseSchoolSlider.new cards width).runOps ops).currentIndex
          ≤ ((ChooseSchoolSlider.new cards width).runOps ops).maxIndex
      ∧ ((ChooseSchoolSlider.new cards width).runOps ops).maxIndex
          = max 0 ((cards : Int)
              - (((ChooseSchoolSlider.new cards width).runOps ops).cardsPerView : Int)))
    ∧ (0 ≤ ((ExhibitionBenefitsSlider.new bcards bwidth false).runOps bops).currentIndex
      ∧ ((ExhibitionBenefitsSlider.new bcards bwidth false).runOps bops).currentIndex
          ≤ ((ExhibitionBenefitsSlider.new bcards bwidth false).runOps bops).maxIndex) := by
  have hgood := choose_slider_good_runOps (ChooseSchoolSlider.new cards width) ops
    (choose_slider_good_new cards width) hops
  have hlen := choose_slider_cardsLen_runOps (ChooseSchoolSlider.new cards width) ops
  have hbgood := benefits_slider_good_runOps (ExhibitionBenefitsSlider.new bcards bwidth false)
    bops (benefits_slider_good_new bcards bwidth false)
  obtain ⟨h0, h1, h2⟩ := hgood
  refine ⟨⟨h0, h1, ?_⟩, hbgood.1, hbgood.2.1⟩
  rw [h2, hlen]
  rfl

/-- C2 witness: a concrete mixed sequence (next, dot jump, resize to a
narrow viewport, prev) on an 8-card slider starting at width 1200. -/
theorem index_stays_in_bounds_witness :
    (0 ≤ ((ChooseSchoolSlider.new 8 1200).runOps
        [SliderOp.next, SliderOp.goTo 3, SliderOp.resize 500, SliderOp.prev]).currentIndex
      ∧ ((ChooseSchoolSlider.new 8 1200).runOps
          [SliderOp.next, SliderOp.goTo 3, SliderOp.resize 500, SliderOp.prev]).currentIndex
          ≤ ((ChooseSchoolSlider.new 8 1200).runOps
              [SliderOp.next, SliderOp.goTo 3, SliderOp.resize 500, SliderOp.prev]).maxIndex
      ∧ ((ChooseSchoolSlider.new 8 1200).runOps
          [SliderOp.next, SliderOp.goTo 3, SliderOp.resize 500, SliderOp.prev]).maxIndex
          = max 0 ((8 : Int)
              - (((ChooseSchoolSlider.new 8 1200).runOps
                  [SliderOp.next, SliderOp.goTo 3, SliderOp.resize 500,
                    SliderOp.prev]).cardsPerView : Int)))
    ∧ (0 ≤ ((ExhibitionBenefitsSlider.new 6 1200 false).runOps
          [BenefitsOp.next, BenefitsOp.prev]).currentIndex
      ∧ ((ExhibitionBenefitsSlider.new 6 1200 false).runOps
          [BenefitsOp.next, BenefitsOp.prev]).currentIndex
          ≤ ((ExhibitionBenefitsSlider.new 6 1200 false).runOps
              [BenefitsOp.next, BenefitsOp.prev]).maxIndex) :=
  index_stays_in_bounds 8 1200 [SliderOp.next, SliderOp.goTo 3, SliderOp.resize 500,
    SliderOp.prev] 6 1200 [BenefitsOp.next, BenefitsOp.prev] (by decide)

/-! ### One-shot reveal machinery (claims C6 and C9) -/

lemma animateAdds_step_extends (st : PageAnim) (t : PageSection) (i : Bool) :
    ∃ tail, (observerCallbackStep st t i).animateAdds = st.animateAdds ++ tail := by
  unfold observerCallbackStep
  split
  · exact ⟨[t], rfl⟩
  · exact ⟨[], (List.append_nil _).symm⟩

lemma count_le_runIntersectionEvents (st : PageAnim) (evs : List (PageSection × Bool))
    (sec : PageSection) :
    st.animateAdds.count sec ≤ (runIntersectionEvents st evs).animateAdds.count sec := by
  induction evs generalizing st with
  | nil => exact le_refl _
  | cons e rest ih =>
      obtain ⟨t, i⟩ := e
      calc st.animateAdds.count sec
          ≤ (observerCallbackStep st t i).animateAdds.count sec := by
            obtain ⟨tail, htail⟩ := animateAdds_step_extends st t i
            rw [htail, List.count_append]
            exact Nat.le_add_right _ _
        _ ≤ (runIntersectionEvents (observerCallbackStep st t i) rest).animateAdds.count sec :=
            ih (observerCallbackStep st t i)

/-- The inductive invariant for the one-shot reveal: the observed list has no
duplicates, a still-observed section has not yet received the class, no
section has received it more than once, and the benefits slider's `init` has
been called exactly as often as the benefits section's class was added. -/
def PageAnim.CountInv (st : PageAnim) : Prop :=
  st.observed.Nodup
  ∧ (∀ sec ∈ st.observed, st.animateAdds.count sec = 0)
  ∧ (∀ sec : PageSection, st.animateAdds.count sec ≤ 1)
  ∧ st.benefitsInitCalls = st.animateAdds.count PageSection.exhibitionBenefits

lemma countInv_step (st : PageAnim) (t : PageSection) (i : Bool) (h : st.CountInv) :
    (observerCallbackStep st t i).CountInv := by
  obtain ⟨hnd, hobs, hle, hinit⟩ := h
  unfold observerCallbackStep
  split
  · rename_i hc
    obtain ⟨hmem, -⟩ := hc
    refine ⟨hnd.erase t, ?_, ?_, ?_⟩
    · intro sec hsec
      have hne : sec ≠ t := by
        intro heq
        subst heq
        exact hnd.not_mem_erase hsec
      have hsec2 : sec ∈ st.observed := List.mem_of_mem_erase hsec
      show (st.animateAdds ++ [t]).count sec = 0
      rw [List.count_append, hobs sec hsec2, List.count_singleton']
      simp [Ne.symm hne]
    · intro sec
      show (st.animateAdds ++ [t]).count sec ≤ 1
      rw [List.count_append, List.count_singleton']
      by_cases hst : sec = t
      · subst hst
        rw [hobs sec hmem]
        simp
      · rw [if_neg (Ne.symm hst)]
        simpa using hle sec
    · show (if t = PageSection.exhibitionBenefits then st.benefitsInitCalls + 1
          else st.benefitsInitCalls)
        = (st.animateAdds ++ [t]).count PageSection.exhibitionBenefits
      rw [List.count_append, List.count_singleton']
      by_cases hb : t = PageSection.exhibitionBenefits
      · rw [if_pos hb, if_pos hb, hinit]
      · rw [if_neg hb, if_neg hb, hinit]
        omega
  · exact ⟨hnd, hobs, hle, hinit⟩

lemma countInv_run (st : PageAnim) (evs : List (PageSection × Bool)) (h : st.CountInv) :
    (runIntersectionEvents st evs).CountInv := by
  induction evs generalizing st with
  | nil => exact h
  | cons e rest ih =>
      obtain ⟨t, i⟩ := e
      exact ih (observerCallbackStep st t i) (countInv_step st t i h)

lemma one_le_count_of_event (evs : List (PageSection × Bool)) (sec : PageSection) :
    ∀ st : PageAnim, sec ∈ st.observed → (sec, true) ∈ evs →
      1 ≤ (runIntersectionEvents st evs).animateAdds.count sec := by
  induction evs with
  | nil =>
      intro st _ hev
      cases hev
  | cons e rest ih =>
      intro st hmem hev
      obtain ⟨t, i⟩ := e
      rw [List.mem_cons] at hev
      rcases hev with heq | hev
      · injection heq with h1 h2
        subst h1
        subst h2
        have hstep : (observerCallbackStep st sec true).animateAdds
            = st.animateAdds ++ [sec] := by
          unfold observerCallbackStep
          rw [if_pos ⟨hmem, rfl⟩]
        have hone : 1 ≤ (observerCallbackStep st sec true).animateAdds.count sec := by
          rw [hstep, List.count_append, List.count_singleton']
          simp
        exact le_trans hone (count_le_runIntersectionEvents _ rest sec)
      · by_cases hfire : t ∈ st.observed ∧ i = true
        · by_cases hts : t = sec
          · subst hts
            obtain ⟨-, hi⟩ := hfire
            subst hi
            have hstep : (observerCallbackStep st t true).animateAdds
                = st.animateAdds ++ [t] := by
              unfold observerCallbackStep
              rw [if_pos ⟨hmem, rfl⟩]
            have hone : 1 ≤ (observerCallbackStep st t true).animateAdds.count t := by
              rw [hstep, List.count_append, List.count_singleton']
              simp
            exact le_trans hone (count_le_runIntersectionEvents _ rest t)
          · have hobserved : (observerCallbackStep st t i).observed = st.observed.erase t := by
              unfold observerCallbackStep
              rw [if_pos hfire]
            refine ih (observerCallbackStep st t i) ?_ hev
            rw [hobserved]
            exact (List.mem_erase_of_ne (fun h => hts h.symm)).mpr hmem
        · have hstep : observerCallbackStep st t i = st := by
            unfold observerCallbackStep
            rw [if_neg hfire]
          show 1 ≤ (runIntersectionEvents (observerCallbackStep st t i) rest).animateAdds.count sec
          rw [hstep]
          exact ih st hmem hev

lemma run_of_no_observed (evs : List (PageSection × Bool)) (st : PageAnim)
    (h : st.observed = []) : runIntersectionEvents st evs = st := by
  induction evs with
  | nil => rfl
  | cons e rest ih =>
      obtain ⟨t, i⟩ := e
      have hstep : observerCallbackStep st t i = st := by
        unfold observerCallbackStep
        rw [if_neg]
        rintro ⟨hmem, -⟩
        rw [h] at hmem
        cases hmem
      show runIntersectionEvents (observerCallbackStep st t i) rest = st
      rw [hstep]
      exact ih

/-- C6: for every tracked section the reveal class is applied at most once
per page load over any finite trace of intersection events; the observer is
configured with threshold 10% and a 50px bottom root margin; the deferred
benefits slider's `init` is called exactly as often as the benefits section's
class is added (so exactly at the reveal moment); and when the observer is
installed (no reduced motion), an intersecting event for a section makes its
class count exactly one, regardless of further events. -/
theorem reveal_class_one_shot (reduced : Bool) (b0 : ExhibitionBenefitsSlider)
    (evs : List (PageSection × Bool)) (sec : PageSection) :
    observerThreshold = 1 / 10
    ∧ observerRootMarginBottomPx = -50
    ∧ (runIntersectionEvents (initScrollAnimations reduced b0) evs).animateAdds.count sec ≤ 1
    ∧ (runIntersectionEvents (initScrollAnimations reduced b0) evs).benefitsInitCalls
        = (runIntersectionEvents (initScrollAnimations reduced b0) evs).animateAdds.count
            PageSection.exhibitionBenefits
    ∧ (reduced = false → (sec, true) ∈ evs →
        (runIntersectionEvents (initScrollAnimations reduced b0) evs).animateAdds.count sec
          = 1) := by
  have hinv0 : (initScrollAnimations reduced b0).CountInv := by
    cases reduced with
    | false =>
        refine ⟨?_, ?_, ?_, rfl⟩
        · show trackedSections.Nodup
          decide
        · intro s _
          simp [initScrollAnimations]
        · intro s
          simp [initScrollAnimations]
    | true =>
        refine ⟨List.nodup_nil, ?_, ?_, rfl⟩
        · intro s hs
          simp [initScrollAnimations] at hs
        · intro s
          simp [initScrollAnimations]
  obtain ⟨-, -, hle, hinit⟩ := countInv_run _ evs hinv0
  refine ⟨rfl, rfl, hle sec, hinit, ?_⟩
  intro hred hev
  have hmem : sec ∈ (initScrollAnimations reduced b0).observed := by
    subst hred
    show sec ∈ trackedSections
    cases sec <;> decide
  exact le_antisymm (hle sec) (one_le_count_of_event evs sec _ hmem hev)

/-- C6 witness: two intersecting events for the stats section produce the
class exactly once. -/
theorem reveal_class_one_shot_witness :
    (runIntersectionEvents
        (initScrollAnimations false (ExhibitionBenefitsSlider.new 6 1200 false))
        [(PageSection.stats, true), (PageSection.stats, true)]).animateAdds.count
      PageSection.stats = 1 :=
  (reveal_class_one_shot false (ExhibitionBenefitsSlider.new 6 1200 false)
      [(PageSection.stats, true), (PageSection.stats, true)] PageSection.stats).2.2.2.2
    rfl (by decide)

/-- C9: under the reduced-motion preference `initScrollAnimations` returns
before installing the observer, so over any finite trace of intersection
events no section ever receives the reveal class, the deferred benefits
slider's `init` is never called, and the slider (created with
`autoInit = false`) stays inactive for the whole page lifetime. -/
theorem reduced_motion_keeps_benefits_inactive (cards width : Nat)
    (evs : List (PageSection × Bool)) :
    (runIntersectionEvents
        (initScrollAnimations true (ExhibitionBenefitsSlider.new cards width false))
        evs).observerInstalled = false
    ∧ (runIntersectionEvents
        (initScrollAnimations true (ExhibitionBenefitsSlider.new cards width false))
        evs).animateAdds = []
    ∧ (runIntersectionEvents
        (initScrollAnimations true (ExhibitionBenefitsSlider.new cards width false))
        evs).benefits.activated = false
    ∧ (runIntersectionEvents
        (initScrollAnimations true (ExhibitionBenefitsSlider.new cards width false))
        evs).benefitsInitCalls = 0 := by
  have hrun := run_of_no_observed evs
    (initScrollAnimations true (ExhibitionBenefitsSlider.new cards width false)) rfl
  rw [hrun]
  refine ⟨rfl, rfl, ?_, rfl⟩
  show (ExhibitionBenefitsSlider.new cards width false).activated = false
  rfl

end SchoolSite
